import Mathlib

/-!
# Verification of the cb-simulation-util plant elements

Shallow embedding of the discrete-time simulation elements of the
`cb-simulation-util` crate: the hysteresis switch (`src/hysteresis.rs`),
the PT0 delay element (`src/plant/pt0.rs`), the PT1 first order lag
(`src/plant/pt1.rs`), the PT2 second order lag (`src/plant/pt2.rs`) and
the type-erased element handle (`src/plant/mod.rs`).

Numeric conventions of the embedding:

* `f64` values are modelled by `ℚ` wherever every operation performed by the
  code is exact in binary floating point for the values under consideration
  (sums, differences, products and the divisions appearing here at small
  dyadic operands).  The single place where IEEE-754 semantics differ from
  field arithmetic on the reachable inputs — `1.0 / 0.0 = +∞` in the guard of
  `PT2::set_omega_or_default` — is modelled explicitly.
* `PT2::set_t2_time_or_default` takes a real square root, so the `PT2`
  structure is generic over a linear ordered field and that one setter is
  stated over `ℝ` with `Real.sqrt`.
* `i32` values are modelled by `ℤ`; the runs evaluated below stay well within
  the `i32` range, so two's-complement wrapping never fires on them.  The
  `as i32` / `as usize` casts (truncation toward zero, saturating) are
  modelled explicitly.
* Rust `Result` is modelled by `Except`, and a Rust `panic!` or an
  out-of-bounds array access by an `Except.error` value naming the abort.
-/

set_option maxRecDepth 100000

/-- Decidable equality for `Except`, used to evaluate run results. -/
instance {ε α : Type} [DecidableEq ε] [DecidableEq α] : DecidableEq (Except ε α) :=
  fun a b =>
    match a, b with
    | Except.error x, Except.error y =>
      if h : x = y then isTrue (by rw [h])
      else isFalse (by intro hc; cases hc; exact h rfl)
    | Except.ok x, Except.ok y =>
      if h : x = y then isTrue (by rw [h])
      else isFalse (by intro hc; cases hc; exact h rfl)
    | Except.error _, Except.ok _ => isFalse (by intro h; cases h)
    | Except.ok _, Except.error _ => isFalse (by intro h; cases h)

/-! ## Hysteresis (`src/hysteresis.rs`) -/

/-- `enum Direction { FromUpper, FromLower }`. -/
inductive Direction : Type
  | FromUpper : Direction
  | FromLower : Direction
deriving DecidableEq

/-- `struct LinearFn<N> { m: N, n: N }`, instantiated at `N = ℚ`. -/
structure LinearFn : Type where
  m : ℚ
  n : ℚ
deriving DecidableEq

/-- `struct Hysteresis<N>` instantiated at `N = ℚ`. -/
structure Hysteresis : Type where
  upper_fn : LinearFn
  lower_fn : LinearFn
  upper : ℚ
  lower : ℚ
  direction : Direction
deriving DecidableEq

/-- `struct NotDefinedError;` from `src/lib.rs`. -/
inductive NotDefinedError : Type
  | mk : NotDefinedError
deriving DecidableEq

/-- `impl TransferFunction<N> for Hysteresis<N>::transfer` from
`src/hysteresis.rs` lines 27-42.  The mutated `self` is returned alongside
the `Result` value. -/
def Hysteresis.transfer (h : Hysteresis) (u : ℚ) :
    Except NotDefinedError (ℚ × Hysteresis) :=
  if h.lower > u then
    Except.ok (h.lower_fn.m * u + h.lower_fn.n, { h with direction := Direction.FromLower })
  else if h.upper < u then
    Except.ok (h.upper_fn.m * u + h.upper_fn.n, { h with direction := Direction.FromUpper })
  else
    match h.direction with
    | Direction.FromLower => Except.ok (h.lower_fn.m * u + h.lower_fn.n, h)
    | Direction.FromUpper => Except.ok (h.upper_fn.m * u + h.upper_fn.n, h)

/-- `struct HysteresisBuilder<N>` instantiated at `N = ℚ`. -/
structure HysteresisBuilder : Type where
  upper_fn : LinearFn
  lower_fn : LinearFn
  upper : Option ℚ
  lower : Option ℚ
  midpoint : ℚ
  spread : ℚ
  direction : Direction
deriving DecidableEq

/-- `HysteresisBuilder::new` (`src/hysteresis.rs` lines 77-87); `N::default()`
for a numeric type is zero. -/
def HysteresisBuilder.new (lower_fn upper_fn : LinearFn) : HysteresisBuilder :=
  { upper_fn := upper_fn
    lower_fn := lower_fn
    upper := none
    lower := none
    spread := 0
    midpoint := 0
    direction := Direction.FromLower }

/-- `HysteresisBuilder::build` (`src/hysteresis.rs` lines 89-111).
`<N>::one() + <N>::one()` is the literal `2`. -/
def HysteresisBuilder.build (b : HysteresisBuilder) : Hysteresis :=
  let lower :=
    match b.lower with
    | some x => x
    | none =>
      match b.upper with
      | none => b.midpoint - b.spread / 2
      | some y => y - b.spread
  let upper :=
    match b.upper with
    | some x => x
    | none =>
      match b.lower with
      | none => b.midpoint + b.spread / 2
      | some y => y + b.spread
  { lower_fn := b.lower_fn
    upper_fn := b.upper_fn
    upper := upper
    lower := lower
    direction := b.direction }

/-- `HysteresisBuilder::spread_x`. -/
def HysteresisBuilder.spread_x (b : HysteresisBuilder) (s : ℚ) : HysteresisBuilder :=
  { b with spread := s }

/-- `HysteresisBuilder::spread_y`. -/
def HysteresisBuilder.spread_y (b : HysteresisBuilder) (s : ℚ) : HysteresisBuilder :=
  if b.lower_fn.m ≠ b.upper_fn.m then
    { b with spread := s / (b.upper_fn.m - b.lower_fn.m) }
  else b

/-- `HysteresisBuilder::cross`. -/
def HysteresisBuilder.cross (b : HysteresisBuilder) : HysteresisBuilder :=
  if b.lower_fn.m ≠ b.upper_fn.m then
    { b with midpoint := (b.lower_fn.n - b.upper_fn.n) / (b.upper_fn.m - b.lower_fn.m) }
  else b

/-- `HysteresisBuilder::lower_x`. -/
def HysteresisBuilder.lower_x (b : HysteresisBuilder) (s : ℚ) : HysteresisBuilder :=
  { b with lower := some s }

/-- `HysteresisBuilder::upper_x`. -/
def HysteresisBuilder.upper_x (b : HysteresisBuilder) (s : ℚ) : HysteresisBuilder :=
  { b with upper := some s }

/-- `HysteresisBuilder::upper_direction`. -/
def HysteresisBuilder.upper_direction (b : HysteresisBuilder) : HysteresisBuilder :=
  { b with direction := Direction.FromUpper }

/-! ## PT0 delay element (`src/plant/pt0.rs`), `f64` variant -/

/-- `const MAX_BUFFER_SIZE: usize = 1000;`. -/
def MAX_BUFFER_SIZE : ℕ := 1000

/-- `struct PT0<N>` with `N = f64`; the fixed array `[N; MAX_BUFFER_SIZE]` is
modelled by a list that by construction always has `MAX_BUFFER_SIZE`
elements. -/
structure PT0 : Type where
  t0_time : ℚ
  sample_time : ℚ
  kp : ℚ
  buffered_output : List ℚ
deriving DecidableEq

/-- `impl Default for PT0<f64>`. -/
def PT0.defaultF : PT0 :=
  { t0_time := 0
    sample_time := 1
    kp := 1
    buffered_output := List.replicate MAX_BUFFER_SIZE 0 }

/-- `PT0::set_sample_time_or_default`. -/
def PT0.set_sample_time_or_default (p : PT0) (sample_time : ℚ) : PT0 :=
  if sample_time > 0 then { p with sample_time := sample_time }
  else { p with sample_time := 1 }

/-- `PT0::set_t0_time` (`src/plant/pt0.rs` lines 46-52): the accepted value is
stored as `t0_time + 1.0`. -/
def PT0.set_t0_time (p : PT0) (t0_time : ℚ) : Except String PT0 :=
  if t0_time ≥ 0 then Except.ok { p with t0_time := t0_time + 1 }
  else Except.error "Invalid t0_time: Must be >= 0.0"

/-- `PT0::set_t0_time_or_default`. -/
def PT0.set_t0_time_or_default (p : PT0) (t0_time : ℚ) : PT0 :=
  if t0_time ≥ 0 then { p with t0_time := t0_time + 1 }
  else { p with t0_time := 1 }

/-- `PT0<f64>::set_kp`. -/
def PT0.set_kp (p : PT0) (kp : ℚ) : PT0 :=
  { p with kp := kp }

/-- The loop `for i in 0..length { buf[i] = buf[i + 1]; }`: each iteration
writes index `i` with the current value at index `i + 1`; since writes go to
strictly increasing indices, every read sees the original array content.
`List.getD` and `List.set` are total; `transfer_td` only invokes this with
`length < buf.length`, exactly the range in which they coincide with the
Rust array accesses. -/
def pt0ShiftLeft (buf : List ℚ) (length : ℕ) : List ℚ :=
  (List.range length).foldl (fun b i => b.set i (b.getD (i + 1) 0)) buf

/-- Abort conditions of `PT0::transfer_td`: the explicit
`panic!("Panic: Buffer size exceeded ...")` guard, and an out-of-bounds
array index (a Rust panic as well). -/
inductive Pt0Panic : Type
  | capacityExceeded : Pt0Panic
  | indexOutOfBounds : Pt0Panic
deriving DecidableEq

/-- `impl TransferTimeDomain<f64> for PT0<f64>::transfer_td`
(`src/plant/pt0.rs` lines 101-117).  `(self.t0_time / self.sample_time) as
usize` truncates toward zero and clamps negatives to `0`, which on this range
is `Int.toNat ∘ Int.floor`.  When `length = MAX_BUFFER_SIZE` the guard
`length > MAX_BUFFER_SIZE` does not fire, but the loop reads
`buffered_output[length]` (at `i = length - 1`) and the subsequent write
targets `buffered_output[length]`, one past the end of the
`[N; MAX_BUFFER_SIZE]` array: Rust aborts with an index-out-of-bounds panic. -/
def PT0.transfer_td (p : PT0) (input : ℚ) : Except Pt0Panic (ℚ × PT0) :=
  let length : ℕ := (Int.floor (p.t0_time / p.sample_time)).toNat
  if length > MAX_BUFFER_SIZE then
    Except.error Pt0Panic.capacityExceeded
  else if length < MAX_BUFFER_SIZE then
    let buf := (pt0ShiftLeft p.buffered_output length).set length (input * p.kp)
    Except.ok (buf.headD 0, { p with buffered_output := buf })
  else
    Except.error Pt0Panic.indexOutOfBounds

/-- Feed a list of inputs through successive `PT0::transfer_td` calls,
propagating the state and stopping at the first panic. -/
def PT0.run (p : PT0) : List ℚ → Except Pt0Panic (List ℚ × PT0)
  | [] => Except.ok ([], p)
  | u :: us =>
    match p.transfer_td u with
    | Except.error e => Except.error e
    | Except.ok (y, p1) =>
      match p1.run us with
      | Except.error e => Except.error e
      | Except.ok (ys, p2) => Except.ok (y :: ys, p2)

/-! ## PT1 first order lag (`src/plant/pt1.rs`) -/

/-- `const FIX_KOMMA_SHIFT_BITS: u8 = 10;`. -/
def FIX_KOMMA_SHIFT_BITS : ℕ := 10

/-- `const FIX_KOMMA_SHIFT: i32 = 1 << FIX_KOMMA_SHIFT_BITS;`. -/
def FIX_KOMMA_SHIFT : ℤ := 2 ^ FIX_KOMMA_SHIFT_BITS

/-- Rust `expr as i32` on an `f64`: truncation toward zero, saturating at the
`i32` bounds.  On `ℚ`, truncation toward zero is `Int` division of the
numerator by the denominator. -/
def f64AsI32 (q : ℚ) : ℤ :=
  max (-(2 ^ 31)) (min (2 ^ 31 - 1) (q.num / (q.den : ℤ)))

/-- Arithmetic shift right on `i32` (Rust `>>`): sign-extending, i.e. flooring
division by the corresponding power of two. -/
def asr (x : ℤ) (k : ℕ) : ℤ :=
  Int.fdiv x (2 ^ k)

/-- `struct PT1<N>` with `N = i32`: the two time fields are `f64`, the gain
and the state are `i32`. -/
structure PT1i : Type where
  t1_time : ℚ
  sample_time : ℚ
  kp : ℤ
  previous_output : ℤ
deriving DecidableEq

/-- `impl Default for PT1<i32>`. -/
def PT1i.default : PT1i :=
  { t1_time := 1
    sample_time := 1
    kp := FIX_KOMMA_SHIFT
    previous_output := 0 }

/-- `PT1<i32>::alpha`: `(self.sample_time * FIX_KOMMA_SHIFT as f64 /
self.t1_time) as i32`. -/
def PT1i.alpha (p : PT1i) : ℤ :=
  f64AsI32 (p.sample_time * (FIX_KOMMA_SHIFT : ℤ) / p.t1_time)

/-- `impl TransferTimeDomain<i32> for PT1<i32>::transfer_td`
(`src/plant/pt1.rs` lines 85-92).  In Rust, `+` binds tighter than `>>`, so
`let out = self.previous_output + (self.alpha() * (input * self.kp -
self.previous_output)) >> FIX_KOMMA_SHIFT_BITS` shifts the whole sum.  The
stored state is `out`; the returned value is `out >> FIX_KOMMA_SHIFT_BITS`,
a second shift. -/
def PT1i.transfer_td (p : PT1i) (input : ℤ) : ℤ × PT1i :=
  let out := asr (p.previous_output + p.alpha * (input * p.kp - p.previous_output))
    FIX_KOMMA_SHIFT_BITS
  (asr out FIX_KOMMA_SHIFT_BITS, { p with previous_output := out })

/-- Feed a list of inputs through successive `PT1<i32>::transfer_td` calls. -/
def PT1i.run (p : PT1i) : List ℤ → List ℤ × PT1i
  | [] => ([], p)
  | u :: us =>
    let s := p.transfer_td u
    let r := s.2.run us
    (s.1 :: r.1, r.2)

/-- `struct PT1<N>` with `N = f64`. -/
structure PT1f : Type where
  t1_time : ℚ
  sample_time : ℚ
  kp : ℚ
  previous_output : ℚ
deriving DecidableEq

/-- `impl Default for PT1<f64>`. -/
def PT1f.default : PT1f :=
  { t1_time := 1
    sample_time := 1
    kp := 1
    previous_output := 0 }

/-- `PT1<f64>::alpha`. -/
def PT1f.alpha (p : PT1f) : ℚ :=
  p.sample_time / p.t1_time

/-- `impl TransferTimeDomain<f64> for PT1<f64>::transfer_td`
(`src/plant/pt1.rs` lines 116-122). -/
def PT1f.transfer_td (p : PT1f) (input : ℚ) : ℚ × PT1f :=
  let out := p.previous_output + p.alpha * (input * p.kp - p.previous_output)
  (out, { p with previous_output := out })

/-- Feed a list of inputs through successive `PT1<f64>::transfer_td` calls. -/
def PT1f.run (p : PT1f) : List ℚ → List ℚ × PT1f
  | [] => ([], p)
  | u :: us =>
    let s := p.transfer_td u
    let r := s.2.run us
    (s.1 :: r.1, r.2)

/-! ## PT2 second order lag (`src/plant/pt2.rs`), `f64` variant

The structure is generic over a linear ordered field: every claim about
rational-only arithmetic is evaluated at `α = ℚ`, while
`set_t2_time_or_default`, which takes a square root, is stated at `α = ℝ`. -/

/-- `struct PT2<N>` with `N = f64`: all six fields are `f64`. -/
structure PT2 (α : Type) : Type where
  omega : α
  damping : α
  sample_time : α
  kp : α
  previous_output : α
  previous_diff_output : α
deriving DecidableEq

/-- `impl Default for PT2<f64>`. -/
def PT2.defaultF (α : Type) [LinearOrderedField α] : PT2 α :=
  { omega := 1
    damping := 1
    sample_time := 1
    kp := 1
    previous_output := 0
    previous_diff_output := 0 }

/-- `PT2::set_sample_time_or_default` (`src/plant/pt2.rs` lines 44-56). -/
def PT2.set_sample_time_or_default {α : Type} [LinearOrderedField α]
    (p : PT2 α) (sample_time : α) : PT2 α :=
  if sample_time > 0 then { p with sample_time := sample_time }
  else { p with sample_time := 1 }

/-- `PT2::set_omega_or_default` (`src/plant/pt2.rs` lines 58-64): the guard is
`if 1.0 / omega >= self.sample_time`.  In IEEE-754 `f64` arithmetic,
`1.0 / 0.0` is `+∞`, which satisfies `>= sample_time` for every finite
`sample_time`, so the argument `omega = 0.0` passes the guard and is stored.
A field has a single zero, so that case is modelled by the explicit first
disjunct.  (For the argument `-0.0` the quotient would be `-∞` and the guard
would fail, taking the same branch as every other negative argument.) -/
def PT2.set_omega_or_default {α : Type} [LinearOrderedField α]
    (p : PT2 α) (omega : α) : PT2 α :=
  if omega = 0 ∨ 1 / omega ≥ p.sample_time then { p with omega := omega }
  else { p with omega := 1 }

/-- `PT2::set_damping_or_default` (`src/plant/pt2.rs` lines 72-78). -/
def PT2.set_damping_or_default {α : Type} [LinearOrderedField α]
    (p : PT2 α) (damping : α) : PT2 α :=
  if damping ≥ 0 then { p with damping := damping }
  else { p with damping := 1 }

/-- `PT2::set_t1_time_or_default` (`src/plant/pt2.rs` lines 84-90). -/
def PT2.set_t1_time_or_default {α : Type} [LinearOrderedField α]
    (p : PT2 α) (t1_time : α) : PT2 α :=
  if t1_time ≥ p.sample_time then { p with omega := 1 / t1_time }
  else { p with omega := 1 }

/-- `PT2::set_t2_time_or_default` (`src/plant/pt2.rs` lines 96-109), stated
over `ℝ` because of the `f64::sqrt` call:
`let omega = (1.0 / t2_time * self.omega).sqrt();` and
`damping: (1.0 / self.omega + t2_time) / (2.0 * self.omega)`, both reading
the pre-call `self.omega`. -/
noncomputable def PT2.set_t2_time_or_default (p : PT2 ℝ) (t2_time : ℝ) : PT2 ℝ :=
  if t2_time ≥ p.sample_time then
    { p with
      omega := Real.sqrt (1 / t2_time * p.omega)
      damping := (1 / p.omega + t2_time) / (2 * p.omega) }
  else { p with damping := 1 }

/-- `impl TransferTimeDomain<f64> for PT2<f64>::transfer_td`
(`src/plant/pt2.rs` lines 195-211): both `diff_output` and `output` are
computed from the pre-call state, then both state fields are overwritten and
`output` is returned. -/
def PT2.transfer_td {α : Type} [LinearOrderedField α]
    (p : PT2 α) (input : α) : α × PT2 α :=
  let omega_squared := p.omega * p.omega
  let diff_output := p.previous_diff_output
    + p.sample_time
      * (-2 * p.damping * p.omega * p.previous_diff_output
          - omega_squared * p.previous_output
          + p.kp * omega_squared * input)
  let output := p.previous_output + p.sample_time * p.omega * p.previous_diff_output
  (output,
    { p with
      previous_diff_output := diff_output
      previous_output := output })

/-! ## Type-erased element handle (`src/plant/mod.rs`)

`BoxedTransferTimeDomain<f64>` is a boxed trait object over the concrete
element kinds of the crate that implement `TransferTimeDomain<f64>`; the set
of such kinds is closed (PT0, PT1, PT2), so the handle is modelled as a sum
type.  `dyn_eq` downcasts the other handle to its own concrete type and
compares with that type's derived `PartialEq` (all fields) when the downcast
succeeds, and returns `false` when it fails; `PartialEq for
BoxedTransferTimeDomain<S>` forwards to `dyn_eq` on a clone of the other
handle, and `clone` (via `dyn_clone`) produces a field-identical copy. -/

/-- The closed set of `f64` element kinds behind
`BoxedTransferTimeDomain<f64>`. -/
inductive BoxedTTD : Type
  | pt0 : PT0 → BoxedTTD
  | pt1 : PT1f → BoxedTTD
  | pt2 : PT2 ℚ → BoxedTTD
deriving DecidableEq

/-- The `TypeIdentifier::short_type_name` of the held element
(`"PT0"`, `"PT1"`, `"PT2"`). -/
def BoxedTTD.short_type_name : BoxedTTD → String
  | BoxedTTD.pt0 _ => "PT0"
  | BoxedTTD.pt1 _ => "PT1"
  | BoxedTTD.pt2 _ => "PT2"

/-- `DynTransferTimeDomain::dyn_eq` (`src/plant/mod.rs` lines 61-67): if the
downcast of `other` to the concrete type of `self` succeeds, compare by the
concrete type's `PartialEq` (structural equality of all fields); otherwise
`false`. -/
def BoxedTTD.dyn_eq : BoxedTTD → BoxedTTD → Bool
  | BoxedTTD.pt0 a, BoxedTTD.pt0 b => decide (a = b)
  | BoxedTTD.pt1 a, BoxedTTD.pt1 b => decide (a = b)
  | BoxedTTD.pt2 a, BoxedTTD.pt2 b => decide (a = b)
  | _, _ => false

/-! ## Claims

Closed evaluations of `ℚ` arithmetic are discharged through the kernel
(`of_decide_eq_true` with a definitional-unfolding `rfl`), since the
library's rational operations are not reducible at default transparency. -/

/-- C1: the spec claims that a PT0 configured with `delay_time = 2`,
`sample_interval = 1`, `gain = 1` maps `[100, 1000, 2000, 2000, 2000]` to
`[0, 0, 100, 1000, 2000]` (a delay of `floor(delay_time / sample_interval) =
2` samples).  The code stores `t0_time + 1.0` in `set_t0_time`, so the
element actually delays by 3 samples: the run produces `[0, 0, 0, 100,
1000]`, contradicting the module documentation and the in-crate tests. -/
theorem C1_pt0_configured_delay_one_step_late :
    (PT0.defaultF.set_t0_time 2).map
        (fun p => (PT0.run p [100, 1000, 2000, 2000, 2000]).map Prod.fst)
      = Except.ok (Except.ok [0, 0, 0, 100, 1000]) :=
  of_decide_eq_true (by with_unfolding_all rfl)

/-- C2: the spec claims that with `time_constant = sample_interval` (α = 1)
and gain 1 every step is the identity in both variants.  The floating-point
variant is (first conjunct), but the fixed-point `i32` variant stores the
once-shifted sum as its state and shifts again on return, so the second
constant-input call returns `0`, not `1000` (second conjunct): the
double-shift defect the spec warns about in §9. -/
theorem C2_pt1_default_double_shift :
    (PT1f.default.run [1000, 1000]).1 = [1000, 1000] ∧
    (PT1i.default.run [1000, 1000]).1 = [1000, 0] :=
  of_decide_eq_true (by with_unfolding_all rfl)

/-- C3: the spec (and the module documentation of `pt2.rs`) claims
`damping = (t1 + t2) / (2 · t1 · t2)` after `set_t1_time` followed by
`set_t2_time`.  At `t1 = t2 = 2` (sample interval 1) the code computes
`damping = (1/ω + t2) / (2 · ω)` with `ω = 1/t1`, which evaluates to `4`,
while the documented formula gives `(2 + 2) / (2 · 2 · 2) = 1/2 ≠ 4`. -/
theorem C3_pt2_t1_t2_damping_diverges :
    (((PT2.defaultF ℝ).set_t1_time_or_default 2).set_t2_time_or_default 2).damping = 4 ∧
    ((2 : ℝ) + 2) / (2 * 2 * 2) ≠ 4 := by
  constructor
  · unfold PT2.set_t2_time_or_default PT2.set_t1_time_or_default PT2.defaultF
    norm_num
  · norm_num

/-- C4: the spec claims the step completes normally (touching only in-bounds
indices) whenever the computed delay length is at most `MAX_BUFFER_SIZE =
1000`.  At computed length exactly `1000` (here `t0_time = 1000.0` after
`set_t0_time(999.0)`, `sample_time = 1.0`) the capacity guard
`length > MAX_BUFFER_SIZE` does not fire, but the step then accesses
`buffered_output[1000]` in a 1000-element array and aborts with an
index-out-of-bounds panic instead of completing normally. -/
theorem C4_pt0_capacity_guard_off_by_one :
    (PT0.defaultF.set_t0_time 999).map (fun p => (PT0.run p [1]).map Prod.fst)
      = Except.ok (Except.error Pt0Panic.indexOutOfBounds) :=
  of_decide_eq_true (by with_unfolding_all rfl)

/-- C5: with the stored branch at `FromLower`, any input strictly inside the
band returns the lower segment evaluation and leaves the state (hence the
branch) unchanged; the branch becomes `FromUpper` after a step only when that
step's input strictly exceeds `upper`; and symmetrically a `FromUpper`
element evaluates its upper segment on any in-band input. -/
theorem C5_hysteresis_band_memory (h : Hysteresis) (u v : ℚ)
    (hd : h.direction = Direction.FromLower)
    (hl : h.lower < u) (hu : u < h.upper) :
    h.transfer u = Except.ok (h.lower_fn.m * u + h.lower_fn.n, h) ∧
    (∀ y h2, h.transfer v = Except.ok (y, h2) →
      h2.direction = Direction.FromUpper → h.upper < v) ∧
    (∀ g : Hysteresis, g.direction = Direction.FromUpper →
      g.lower < v → v < g.upper →
      g.transfer v = Except.ok (g.upper_fn.m * v + g.upper_fn.n, g)) := by
  refine ⟨?_, ?_, ?_⟩
  · have h1 : ¬ (h.lower > u) := not_lt.mpr hl.le
    have h2 : ¬ (h.upper < u) := not_lt.mpr hu.le
    simp only [Hysteresis.transfer, if_neg h1, if_neg h2, hd]
  · intro y h2 heq hdir
    by_cases hv1 : h.lower > v
    · simp only [Hysteresis.transfer, if_pos hv1, Except.ok.injEq, Prod.mk.injEq] at heq
      rcases heq with ⟨-, hh2⟩
      subst hh2
      simp at hdir
    · by_cases hv2 : h.upper < v
      · exact hv2
      · simp only [Hysteresis.transfer, if_neg hv1, if_neg hv2, hd, Except.ok.injEq,
          Prod.mk.injEq] at heq
        rcases heq with ⟨-, hh2⟩
        subst hh2
        rw [hd] at hdir
        exact absurd hdir (by simp)
  · intro g hgd hgl hgu
    have h1 : ¬ (g.lower > v) := not_lt.mpr hgl.le
    have h2 : ¬ (g.upper < v) := not_lt.mpr hgu.le
    simp only [Hysteresis.transfer, if_neg h1, if_neg h2, hgd]

/-- Witness for C5 at a concrete element (band `(0, 1)`, lower segment
`y = x`, upper segment `y = x + 1`), in-band input `1/2`, probe input `2`. -/
theorem C5_hysteresis_band_memory_witness :
    (⟨⟨1, 1⟩, ⟨1, 0⟩, 1, 0, Direction.FromLower⟩ : Hysteresis).direction
        = Direction.FromLower ∧
    (⟨⟨1, 1⟩, ⟨1, 0⟩, 1, 0, Direction.FromLower⟩ : Hysteresis).lower < (1/2 : ℚ) ∧
    (1/2 : ℚ) < (⟨⟨1, 1⟩, ⟨1, 0⟩, 1, 0, Direction.FromLower⟩ : Hysteresis).upper ∧
    ((⟨⟨1, 1⟩, ⟨1, 0⟩, 1, 0, Direction.FromLower⟩ : Hysteresis).transfer (1/2)
        = Except.ok
            ((⟨⟨1, 1⟩, ⟨1, 0⟩, 1, 0, Direction.FromLower⟩ : Hysteresis).lower_fn.m * (1/2)
                + (⟨⟨1, 1⟩, ⟨1, 0⟩, 1, 0, Direction.FromLower⟩ : Hysteresis).lower_fn.n,
              (⟨⟨1, 1⟩, ⟨1, 0⟩, 1, 0, Direction.FromLower⟩ : Hysteresis)) ∧
      (∀ y h2,
        (⟨⟨1, 1⟩, ⟨1, 0⟩, 1, 0, Direction.FromLower⟩ : Hysteresis).transfer 2
            = Except.ok (y, h2) →
          h2.direction = Direction.FromUpper →
          (⟨⟨1, 1⟩, ⟨1, 0⟩, 1, 0, Direction.FromLower⟩ : Hysteresis).upper < 2) ∧
      (∀ g : Hysteresis, g.direction = Direction.FromUpper →
        g.lower < 2 → (2 : ℚ) < g.upper →
        g.transfer 2 = Except.ok (g.upper_fn.m * 2 + g.upper_fn.n, g))) :=
  ⟨rfl, of_decide_eq_true (by with_unfolding_all rfl),
    of_decide_eq_true (by with_unfolding_all rfl),
    C5_hysteresis_band_memory ⟨⟨1, 1⟩, ⟨1, 0⟩, 1, 0, Direction.FromLower⟩ (1/2) 2
      rfl (of_decide_eq_true (by with_unfolding_all rfl))
      (of_decide_eq_true (by with_unfolding_all rfl))⟩

/-- C6: the floating-point PT2 step returns
`previous_output + Δt·ω·previous_derivative` (computed from the pre-step
derivative state), stores this value as the new `previous_output`, and stores
`previous_derivative + Δt·(−2·damping·ω·previous_derivative −
ω²·previous_output + gain·ω²·input)` as the new derivative state. -/
theorem C6_pt2_euler_equations {α : Type} [LinearOrderedField α]
    (p : PT2 α) (input : α) :
    (p.transfer_td input).1
        = p.previous_output + p.sample_time * p.omega * p.previous_diff_output ∧
    (p.transfer_td input).2.previous_diff_output
        = p.previous_diff_output
          + p.sample_time * (-(2 * p.damping * p.omega * p.previous_diff_output)
              - p.omega ^ 2 * p.previous_output + p.kp * p.omega ^ 2 * input) ∧
    (p.transfer_td input).2.previous_output = (p.transfer_td input).1 := by
  refine ⟨rfl, ?_, rfl⟩
  show p.previous_diff_output
      + p.sample_time
        * (-2 * p.damping * p.omega * p.previous_diff_output
            - p.omega * p.omega * p.previous_output
            + p.kp * (p.omega * p.omega) * input)
    = _
  ring

/-- C7 counterexample: `set_omega_or_default 0` stores `omega = 0` — the IEEE
quotient `1.0 / 0.0 = +∞` satisfies the guard — so a constructed element can
carry a non-positive natural frequency, contradicting the claim. -/
theorem C7_pt2_zero_omega_accepted :
    ((PT2.defaultF ℚ).set_omega_or_default 0).omega = 0 ∧
    ¬ 0 < ((PT2.defaultF ℚ).set_omega_or_default 0).omega :=
  of_decide_eq_true (by with_unfolding_all rfl)

/-- C7 as amended: `set_sample_time_or_default` always leaves a positive
sample time, `set_damping_or_default` always leaves a non-negative damping,
and `set_omega_or_default` leaves a positive natural frequency for every
nonzero argument (given a positive sample time); only the argument `ω = 0`
slips through the guard. -/
theorem C7_pt2_setters_validate {α : Type} [LinearOrderedField α]
    (p : PT2 α) (s d w : α) (hw : w ≠ 0) (hs : 0 < p.sample_time) :
    0 < (p.set_sample_time_or_default s).sample_time ∧
    0 ≤ (p.set_damping_or_default d).damping ∧
    0 < (p.set_omega_or_default w).omega := by
  refine ⟨?_, ?_, ?_⟩
  · unfold PT2.set_sample_time_or_default
    by_cases hc : s > 0
    · rw [if_pos hc]; exact hc
    · rw [if_neg hc]; exact one_pos
  · unfold PT2.set_damping_or_default
    by_cases hc : d ≥ 0
    · rw [if_pos hc]; exact hc
    · rw [if_neg hc]; exact zero_le_one
  · unfold PT2.set_omega_or_default
    by_cases hc : w = 0 ∨ 1 / w ≥ p.sample_time
    · rw [if_pos hc]
      rcases hc with h0 | hge
      · exact absurd h0 hw
      · exact one_div_pos.mp (lt_of_lt_of_le hs hge)
    · rw [if_neg hc]; exact one_pos

/-- Witness for C7 as amended, at the default element with arguments
`s = 3`, `d = 5`, `w = 2`. -/
theorem C7_pt2_setters_validate_witness :
    (2 : ℚ) ≠ 0 ∧ 0 < (PT2.defaultF ℚ).sample_time ∧
    (0 < ((PT2.defaultF ℚ).set_sample_time_or_default 3).sample_time ∧
     0 ≤ ((PT2.defaultF ℚ).set_damping_or_default 5).damping ∧
     0 < ((PT2.defaultF ℚ).set_omega_or_default 2).omega) :=
  ⟨of_decide_eq_true (by with_unfolding_all rfl),
    of_decide_eq_true (by with_unfolding_all rfl),
    C7_pt2_setters_validate (PT2.defaultF ℚ) 3 5 2
      (of_decide_eq_true (by with_unfolding_all rfl))
      (of_decide_eq_true (by with_unfolding_all rfl))⟩

/-- C8: `Hysteresis::transfer` returns `Ok` on every element and every input;
the `NotDefinedError` value is never constructed. -/
theorem C8_hysteresis_never_errors (h : Hysteresis) (u : ℚ) :
    ∃ y h2, h.transfer u = Except.ok (y, h2) := by
  unfold Hysteresis.transfer
  repeat' split
  all_goals exact ⟨_, _, rfl⟩

/-- C9 counterexample: with the lower threshold explicit at `1`, spread `1`
and the default midpoint `0`, `build` produces `upper = 2` (the explicit
value plus the full spread) while the claimed symmetric derivation
`midpoint + spread / 2` gives `1/2 ≠ 2`. -/
theorem C9_missing_threshold_not_symmetric :
    ((((HysteresisBuilder.new ⟨1, 0⟩ ⟨1, 1⟩).spread_x 1).lower_x 1).build).upper = 2 ∧
    ((((HysteresisBuilder.new ⟨1, 0⟩ ⟨1, 1⟩).spread_x 1).lower_x 1).midpoint
        + (((HysteresisBuilder.new ⟨1, 0⟩ ⟨1, 1⟩).spread_x 1).lower_x 1).spread / 2
      = 1/2) ∧
    (2 : ℚ) ≠ 1/2 :=
  of_decide_eq_true (by with_unfolding_all rfl)

/-- C9 as amended: when exactly one threshold is explicit, `build` keeps the
explicit value in its own place and derives the missing one offset by the
full spread from it (`upper = lower + spread`, `lower = upper − spread`); the
midpoint plays no role in this case. -/
theorem C9_missing_threshold_full_spread (b : HysteresisBuilder) (l u : ℚ) :
    (b.lower = some l → b.upper = none →
      b.build.lower = l ∧ b.build.upper = l + b.spread) ∧
    (b.upper = some u → b.lower = none →
      b.build.upper = u ∧ b.build.lower = u - b.spread) := by
  constructor
  · intro hl hu
    unfold HysteresisBuilder.build
    rw [hl, hu]
    exact ⟨rfl, rfl⟩
  · intro hu hl
    unfold HysteresisBuilder.build
    rw [hl, hu]
    exact ⟨rfl, rfl⟩

/-- Witness for C9 as amended, at the builder of the counterexample
(`lower` explicit at `1`, `upper` unset, spread `1`). -/
theorem C9_missing_threshold_full_spread_witness :
    (((HysteresisBuilder.new ⟨1, 0⟩ ⟨1, 1⟩).spread_x 1).lower_x 1).build.lower = 1 ∧
    (((HysteresisBuilder.new ⟨1, 0⟩ ⟨1, 1⟩).spread_x 1).lower_x 1).build.upper
        = 1 + (((HysteresisBuilder.new ⟨1, 0⟩ ⟨1, 1⟩).spread_x 1).lower_x 1).spread :=
  (C9_missing_threshold_full_spread
      (((HysteresisBuilder.new ⟨1, 0⟩ ⟨1, 1⟩).spread_x 1).lower_x 1) 1 0).1 rfl rfl

/-- C10: equality on the type-erased handle is reflexive and symmetric, and
two handles holding different concrete kinds (different
`short_type_name`s) never compare equal. -/
theorem C10_boxed_equality (x y : BoxedTTD) :
    x.dyn_eq x = true ∧
    x.dyn_eq y = y.dyn_eq x ∧
    (x.short_type_name ≠ y.short_type_name → x.dyn_eq y = false) := by
  refine ⟨?_, ?_, ?_⟩
  · cases x <;> simp [BoxedTTD.dyn_eq]
  · cases x <;> cases y <;>
      simp only [BoxedTTD.dyn_eq] <;>
      first
        | rfl
        | exact decide_eq_decide.mpr eq_comm
  · intro hk
    cases x <;> cases y <;> first | rfl | exact absurd rfl hk

/-- Witness for C10: a PT1 handle versus a PT0 handle with identical gain. -/
theorem C10_boxed_equality_witness :
    (BoxedTTD.pt1 PT1f.default).short_type_name
        ≠ (BoxedTTD.pt0 PT0.defaultF).short_type_name ∧
    ((BoxedTTD.pt1 PT1f.default).dyn_eq (BoxedTTD.pt1 PT1f.default) = true ∧
     (BoxedTTD.pt1 PT1f.default).dyn_eq (BoxedTTD.pt0 PT0.defaultF)
        = (BoxedTTD.pt0 PT0.defaultF).dyn_eq (BoxedTTD.pt1 PT1f.default) ∧
     ((BoxedTTD.pt1 PT1f.default).short_type_name
          ≠ (BoxedTTD.pt0 PT0.defaultF).short_type_name →
       (BoxedTTD.pt1 PT1f.default).dyn_eq (BoxedTTD.pt0 PT0.defaultF) = false)) :=
  ⟨of_decide_eq_true (by with_unfolding_all rfl),
    C10_boxed_equality (BoxedTTD.pt1 PT1f.default) (BoxedTTD.pt0 PT0.defaultF)⟩
